import Mathlib

/-!
Verification of the plankton-rpi pipeline against its specification.

The development shallowly embeds the parts of the repository that the
properties under study talk about:

* the diversity analytics engine (spec section 4.4; the implementation
  module is not part of the sources, so it is modelled from the spec),
* the configuration validator (spec section 4.2; likewise modelled from
  the spec, its callers are in main.py and simulate_pipeline.py),
* the per-sample staged pipeline of simulate_pipeline.py,
* the batch orchestrator of batch_process.py,
* the buffered capture/processing engine of buffered_detection.py,
  modelled as a small-step transition system.
-/

set_option autoImplicit false

/- ### Analytics engine (diversity indices) -/

/-- Total organism count of a ClassCounts snapshot (sum of the per-class
counts). ClassCounts is a mapping from class label to integer count,
represented as an association list. -/
def totalCount (c : List (String × ℕ)) : ℕ :=
  (c.map Prod.snd).sum

/-- Modelled from the spec: the Shannon diversity index of the
AnalyticsEngine (the implementing module is not among the sources).
Spec 4.4: H = -sum of p * ln p over all classes with count > 0, where
p = count / totalCount, and totalCount = 0 gives H = 0 by convention. -/
noncomputable def shannon (c : List (String × ℕ)) : ℝ :=
  if totalCount c = 0 then 0
  else
    -(((c.filter (fun x => 0 < x.2)).map
        (fun x => ((x.2 : ℝ) / (totalCount c : ℝ)) *
          Real.log ((x.2 : ℝ) / (totalCount c : ℝ)))).sum)

/-- Modelled from the spec: the Simpson index D of the AnalyticsEngine
(the implementing module is not among the sources). Spec 4.4:
D = sum of p squared over all classes with count > 0. -/
noncomputable def simpson (c : List (String × ℕ)) : ℝ :=
  ((c.filter (fun x => 0 < x.2)).map
    (fun x => ((x.2 : ℝ) / (totalCount c : ℝ)) ^ 2)).sum

/-- Modelled from the spec: species richness of the AnalyticsEngine (the
implementing module is not among the sources). Spec 4.4: the number of
classes with count > 0. -/
def speciesRichness (c : List (String × ℕ)) : ℕ :=
  (c.filter (fun x => 0 < x.2)).length

theorem shannon_of_totalCount_zero (c : List (String × ℕ))
    (h : totalCount c = 0) : shannon c = 0 := by
  simp [shannon, h]

theorem shannon_single (s : String) (n : ℕ) : shannon [(s, n)] = 0 := by
  cases n with
  | zero => simp [shannon, totalCount]
  | succ k =>
    have hT : totalCount [(s, k + 1)] = k + 1 := by simp [totalCount]
    have hc : ((k : ℝ) + 1) ≠ 0 := by positivity
    simp [shannon, hT, div_self hc, Real.log_one]

theorem simpson_two_even :
    simpson [("A", 1), ("B", 1)] = 1 / 2 := by
  have hT : totalCount [("A", 1), ("B", 1)] = 2 := by simp [totalCount]
  rw [simpson, hT]
  norm_num

/-- C3: the diversity functions satisfy the stated definitions and
edge-case conventions: shannon is 0 whenever the total count is 0 (in
particular on the empty mapping), shannon of a single-species mapping is
0, simpson of a two-species 1/1 mapping is exactly 0.5, and species
richness counts exactly the classes with non-zero count. -/
theorem diversity_edge_cases :
    (∀ c : List (String × ℕ), totalCount c = 0 → shannon c = 0) ∧
    shannon [] = 0 ∧
    (∀ (s : String) (n : ℕ), shannon [(s, n)] = 0) ∧
    simpson [("A", 1), ("B", 1)] = 1 / 2 ∧
    (∀ c : List (String × ℕ),
      speciesRichness c = (c.filter (fun x => x.2 ≠ 0)).length) := by
  refine ⟨shannon_of_totalCount_zero, ?_, shannon_single, simpson_two_even, ?_⟩
  · simp [shannon, totalCount]
  · intro c
    simp [speciesRichness, Nat.pos_iff_ne_zero]

/-- Witness for C3: the zero-total-count convention applied at a concrete
input. -/
theorem diversity_edge_cases_witness :
    totalCount [("X", 0)] = 0 ∧ shannon [("X", 0)] = 0 :=
  ⟨by simp [totalCount], diversity_edge_cases.1 [("X", 0)] (by simp [totalCount])⟩

/- ### Configuration validator -/

/-- One violation reported by configuration validation, naming the
offending section (and key, when the violation is about a key). -/
inductive ConfigViolation where
  | missingSection (sectionName : String)
  | missingKey (sectionName : String) (keyName : String)
  | outOfRange (sectionName : String) (keyName : String)
  deriving DecidableEq

/-- Range constraint attached to a required configuration key. -/
inductive ReqRange where
  | any
  | closed01
  | leftOpen01
  deriving DecidableEq

/-- Decides whether a value satisfies a range constraint: closed01 is the
interval [0,1], leftOpen01 the interval (0,1]. -/
def rangeOk : ReqRange → ℚ → Bool
  | ReqRange.any, _ => true
  | ReqRange.closed01, v => decide (0 ≤ v ∧ v ≤ 1)
  | ReqRange.leftOpen01, v => decide (0 < v ∧ v ≤ 1)

/-- A nested configuration object: top-level sections, each an association
list of keys to numeric values. -/
def PipelineConfig : Type := List (String × List (String × ℚ))

/-- Association-list lookup used for both section and key access. -/
def lookupKey {β : Type} (k : String) : List (String × β) → Option β
  | [] => none
  | (a, b) :: rest => if a = k then some b else lookupKey k rest

/-- The seven required top-level sections of the configuration schema. -/
def sectionNames : List String :=
  ["acquisition", "preprocessing", "segmentation", "classification",
   "counting", "analytics", "export"]

/-- Modelled from the spec: the enumerated required keys of the
configuration schema (pipeline/validators.py is not among the sources).
Spec 4.2: Segmentation requires minArea and maxArea; Counting requires
confidenceThreshold in [0,1]; Analytics requires bloomDominanceThreshold
in (0,1]. -/
def requiredKeySchema : List (String × String × ReqRange) :=
  [("segmentation", "minArea", ReqRange.any),
   ("segmentation", "maxArea", ReqRange.any),
   ("counting", "confidenceThreshold", ReqRange.closed01),
   ("analytics", "bloomDominanceThreshold", ReqRange.leftOpen01)]

/-- Checks a single required key of the schema against a configuration:
a missing section or missing key yields a missing-key violation, a
present key with a value outside its range yields an out-of-range
violation. -/
def checkRequiredKey (cfg : PipelineConfig) (p : String × String × ReqRange) :
    Option ConfigViolation :=
  match lookupKey p.1 cfg with
  | none => some (ConfigViolation.missingKey p.1 p.2.1)
  | some sec =>
    match lookupKey p.2.1 sec with
    | none => some (ConfigViolation.missingKey p.1 p.2.1)
    | some v =>
      if rangeOk p.2.2 v then none
      else some (ConfigViolation.outOfRange p.1 p.2.1)

/-- Violations for required top-level sections absent from the
configuration. -/
def missingSectionViolations (cfg : PipelineConfig) : List ConfigViolation :=
  (sectionNames.filter (fun s => (lookupKey s cfg).isNone)).map
    ConfigViolation.missingSection

/-- Modelled from the spec: ConfigValidator.validate
(pipeline/validators.py is not among the sources; main.py line 81 calls
it as `is_valid, errors = ConfigValidator.validate(config)`). Spec 4.2:
validation is schema-driven, collects all violations in a single pass
without stopping at the first one, and returns either valid or a
non-empty ordered list of violations. -/
def validateConfig (cfg : PipelineConfig) : Bool × List ConfigViolation :=
  let errs := missingSectionViolations cfg ++
    requiredKeySchema.filterMap (checkRequiredKey cfg)
  (errs.isEmpty, errs)

/-- Whether a required key is present in the configuration (its section
exists and contains the key). -/
def keyPresent (cfg : PipelineConfig) (s k : String) : Bool :=
  match lookupKey s cfg with
  | none => false
  | some sec => (lookupKey k sec).isSome

/-- Number of required keys the configuration is missing. -/
def missingKeyCount (cfg : PipelineConfig) : ℕ :=
  (requiredKeySchema.filter (fun p => keyPresent cfg p.1 p.2.1 = false)).length

/-- Recognizes missing-key violations. -/
def isMissingKeyViolation : ConfigViolation → Bool
  | ConfigViolation.missingKey _ _ => true
  | _ => false

/-- The section/key pair a violation names (missing-section violations
carry an empty key). -/
def violationPair : ConfigViolation → String × String
  | ConfigViolation.missingSection s => (s, "")
  | ConfigViolation.missingKey s k => (s, k)
  | ConfigViolation.outOfRange s k => (s, k)

theorem checkRequiredKey_of_missing (cfg : PipelineConfig)
    (p : String × String × ReqRange) (h : keyPresent cfg p.1 p.2.1 = false) :
    checkRequiredKey cfg p = some (ConfigViolation.missingKey p.1 p.2.1) := by
  unfold checkRequiredKey
  unfold keyPresent at h
  cases hs : lookupKey p.1 cfg with
  | none => simp
  | some sec =>
    rw [hs] at h
    simp only at h
    cases hk : lookupKey p.2.1 sec with
    | none => simp [hk]
    | some v =>
      rw [hk] at h
      simp at h

theorem checkRequiredKey_cases (cfg : PipelineConfig)
    (p : String × String × ReqRange) (v : ConfigViolation)
    (h : checkRequiredKey cfg p = some v) :
    v = ConfigViolation.missingKey p.1 p.2.1 ∨
      v = ConfigViolation.outOfRange p.1 p.2.1 := by
  unfold checkRequiredKey at h
  cases hs : lookupKey p.1 cfg with
  | none =>
    rw [hs] at h
    simp only [Option.some.injEq] at h
    exact Or.inl h.symm
  | some sec =>
    rw [hs] at h
    simp only at h
    cases hk : lookupKey p.2.1 sec with
    | none =>
      rw [hk] at h
      simp only [Option.some.injEq] at h
      exact Or.inl h.symm
    | some w =>
      rw [hk] at h
      simp only at h
      by_cases hr : rangeOk p.2.2 w = true
      · simp [hr] at h
      · simp [hr] at h
        exact Or.inr h.symm

theorem checkRequiredKey_of_present (cfg : PipelineConfig)
    (p : String × String × ReqRange) (h : keyPresent cfg p.1 p.2.1 = true) :
    checkRequiredKey cfg p = none ∨
      checkRequiredKey cfg p = some (ConfigViolation.outOfRange p.1 p.2.1) := by
  unfold checkRequiredKey
  unfold keyPresent at h
  cases hs : lookupKey p.1 cfg with
  | none =>
    rw [hs] at h
    simp at h
  | some sec =>
    rw [hs] at h
    simp only at h
    cases hk : lookupKey p.2.1 sec with
    | none =>
      rw [hk] at h
      simp at h
    | some w =>
      by_cases hr : rangeOk p.2.2 w = true
      · simp [hk, hr]
      · simp [hk, hr]

theorem checkRequiredKey_pair (cfg : PipelineConfig)
    (p : String × String × ReqRange) (v : ConfigViolation)
    (h : checkRequiredKey cfg p = some v) : violationPair v = (p.1, p.2.1) := by
  rcases checkRequiredKey_cases cfg p v h with hv | hv <;> rw [hv] <;> rfl

theorem checkRequiredKey_not_section (cfg : PipelineConfig)
    (p : String × String × ReqRange) (v : ConfigViolation)
    (h : checkRequiredKey cfg p = some v) :
    ∀ s, v ≠ ConfigViolation.missingSection s := by
  intro s hc
  rcases checkRequiredKey_cases cfg p v h with hv | hv <;>
    rw [hc] at hv <;> cases hv

/-- Counting the missing-key violations produced by the key checks. -/
theorem filterMap_missing_count (cfg : PipelineConfig) :
    ∀ l : List (String × String × ReqRange),
      ((l.filterMap (checkRequiredKey cfg)).filter isMissingKeyViolation).length =
        (l.filter (fun p => keyPresent cfg p.1 p.2.1 = false)).length := by
  intro l
  induction l with
  | nil => rfl
  | cons p rest ih =>
    by_cases h : keyPresent cfg p.1 p.2.1 = false
    · rw [List.filterMap_cons, checkRequiredKey_of_missing cfg p h]
      simp only [List.filter_cons, h, isMissingKeyViolation]
      simp [ih]
    · have h1 : keyPresent cfg p.1 p.2.1 = true := by
        cases hkp : keyPresent cfg p.1 p.2.1
        · exact absurd hkp h
        · rfl
      rw [List.filterMap_cons]
      have h2 : (List.filter (fun p => keyPresent cfg p.1 p.2.1 = false)
          (p :: rest)).length =
          (List.filter (fun p => keyPresent cfg p.1 p.2.1 = false) rest).length := by
        simp [List.filter_cons, h1]
      rw [h2, ← ih]
      cases hck : checkRequiredKey cfg p with
      | none => rfl
      | some v =>
        have hv : isMissingKeyViolation v = false := by
          rcases checkRequiredKey_of_present cfg p h1 with hn | ho
          · rw [hn] at hck
            cases hck
          · rw [ho] at hck
            simp only [Option.some.injEq] at hck
            rw [← hck]
            rfl
        simp [List.filter_cons, hv]

/-- Membership: every missing required key gives rise to a violation
naming exactly that section and key. -/
theorem missingKey_mem_violations (cfg : PipelineConfig)
    (p : String × String × ReqRange) (hmem : p ∈ requiredKeySchema)
    (h : keyPresent cfg p.1 p.2.1 = false) :
    ConfigViolation.missingKey p.1 p.2.1 ∈ (validateConfig cfg).2 := by
  unfold validateConfig
  simp only [List.mem_append]
  right
  rw [List.mem_filterMap]
  exact ⟨p, hmem, checkRequiredKey_of_missing cfg p h⟩

/-- Mapping a projection over a filterMap result is a sublist of mapping
a compatible projection over the source list. -/
theorem map_filterMap_sublist {α β γ : Type} (f : α → Option β) (g : β → γ)
    (h : α → γ) (hcomp : ∀ a b, f a = some b → g b = h a) :
    ∀ l : List α, ((l.filterMap f).map g).Sublist (l.map h) := by
  intro l
  induction l with
  | nil => simp
  | cons a rest ih =>
    rw [List.filterMap_cons]
    cases hf : f a with
    | none =>
      rw [List.map_cons]
      exact ih.cons (h a)
    | some b =>
      rw [List.map_cons, List.map_cons, hcomp a b hf]
      exact ih.cons₂ (h a)

/-- The violation list is duplicate-free: at most one violation is ever
produced per section and per required key. -/
theorem validate_errs_nodup (cfg : PipelineConfig) :
    ((validateConfig cfg).2).Nodup := by
  unfold validateConfig missingSectionViolations
  simp only
  apply List.Nodup.append
  · apply List.Nodup.map
    · intro a b hab
      cases hab
      rfl
    · apply List.Nodup.filter
      decide
  · apply List.Nodup.of_map violationPair
    apply List.Nodup.sublist
      (map_filterMap_sublist (checkRequiredKey cfg) violationPair
        (fun p => (p.1, p.2.1)) (checkRequiredKey_pair cfg) requiredKeySchema)
    decide
  · intro v hv1 hv2
    rw [List.mem_map] at hv1
    obtain ⟨s, hs, hvs⟩ := hv1
    rw [List.mem_filterMap] at hv2
    obtain ⟨p, hp, hpc⟩ := hv2
    exact checkRequiredKey_not_section cfg p v hpc s hvs.symm

/-- Every missing required key contributes one violation to the output. -/
theorem validate_missing_count (cfg : PipelineConfig) :
    (((validateConfig cfg).2).filter isMissingKeyViolation).length =
      missingKeyCount cfg := by
  unfold validateConfig missingKeyCount
  simp only [List.filter_append, List.length_append]
  rw [filterMap_missing_count cfg requiredKeySchema]
  have h1 : (missingSectionViolations cfg).filter isMissingKeyViolation = [] := by
    unfold missingSectionViolations
    rw [List.filter_eq_nil_iff]
    intro v hv
    rw [List.mem_map] at hv
    obtain ⟨s, hs, hvs⟩ := hv
    rw [← hvs]
    simp [isMissingKeyViolation]
  rw [h1]
  simp

/-- C5: validation reports valid exactly when there are no violations;
otherwise it returns a non-empty ordered list collected in a single
pass; with K required keys missing across any sections it returns at
least K distinct violations, each naming its offending section and key,
and never zero when at least one required key is missing. -/
theorem config_validation_completeness (cfg : PipelineConfig) (K : ℕ)
    (hK : missingKeyCount cfg = K) :
    K ≤ ((validateConfig cfg).2).length ∧
    ((validateConfig cfg).2).Nodup ∧
    (∀ p ∈ requiredKeySchema, keyPresent cfg p.1 p.2.1 = false →
      ConfigViolation.missingKey p.1 p.2.1 ∈ (validateConfig cfg).2) ∧
    (0 < K → (validateConfig cfg).2 ≠ []) ∧
    ((validateConfig cfg).1 = true ↔ (validateConfig cfg).2 = []) := by
  have hlen : K ≤ ((validateConfig cfg).2).length := by
    rw [← hK, ← validate_missing_count cfg]
    exact List.length_filter_le _ _
  refine ⟨hlen, validate_errs_nodup cfg, ?_, ?_, ?_⟩
  · intro p hp hmiss
    exact missingKey_mem_violations cfg p hp hmiss
  · intro hKpos hnil
    rw [hnil] at hlen
    simp at hlen
    omega
  · unfold validateConfig
    simp [List.isEmpty_iff]

/-- A concrete configuration with all seven sections present but two
required keys missing: segmentation.maxArea and
counting.confidenceThreshold. -/
def cfgEx : PipelineConfig :=
  [("acquisition", []), ("preprocessing", []),
   ("segmentation", [("minArea", 10)]), ("classification", []),
   ("counting", []), ("analytics", [("bloomDominanceThreshold", 3/10)]),
   ("export", [])]

/-- Witness for C5: a configuration missing two required keys yields at
least two violations and a non-empty violation list. -/
theorem config_validation_completeness_witness :
    missingKeyCount cfgEx = 2 ∧
    2 ≤ ((validateConfig cfgEx).2).length ∧
    (validateConfig cfgEx).2 ≠ [] :=
  ⟨by decide, (config_validation_completeness cfgEx 2 (by decide)).1,
    (config_validation_completeness cfgEx 2 (by decide)).2.2.2.1 (by decide)⟩

/- ### Per-sample staged pipeline (simulate_pipeline.py) -/

/-- The success/error outcome each stage module's process call would
return for one sample (status == success when the flag is true). -/
structure StageStatuses where
  acquisitionOk : Bool
  preprocessingOk : Bool
  segmentationOk : Bool
  classificationOk : Bool
  countingOk : Bool
  analyticsOk : Bool
  exportOk : Bool
  deriving DecidableEq

/-- StageStatuses is just a 7-tuple of booleans. -/
def stageStatusesEquiv :
    (Bool × Bool × Bool × Bool × Bool × Bool × Bool) ≃ StageStatuses :=
  ⟨fun x => ⟨x.1, x.2.1, x.2.2.1, x.2.2.2.1, x.2.2.2.2.1, x.2.2.2.2.2.1,
      x.2.2.2.2.2.2⟩,
   fun b => ⟨b.acquisitionOk, b.preprocessingOk, b.segmentationOk,
      b.classificationOk, b.countingOk, b.analyticsOk, b.exportOk⟩,
   fun _ => rfl, fun _ => rfl⟩

instance : Fintype StageStatuses := Fintype.ofEquiv _ stageStatusesEquiv

/-- The fixed stage order of simulate_single_sample. -/
def stageNames : List String :=
  ["acquisition", "preprocessing", "segmentation", "classification",
   "counting", "analytics", "export"]

/-- Outcome of the i-th stage in the fixed order. -/
def stageOk (b : StageStatuses) : Fin 7 → Bool :=
  ![b.acquisitionOk, b.preprocessingOk, b.segmentationOk,
    b.classificationOk, b.countingOk, b.analyticsOk, b.exportOk]

/-- Embedding of simulate_single_sample (simulate_pipeline.py lines
68-288): the seven stage modules are invoked strictly in order; on the
first stage whose result status is not success the function logs the
error and returns None. The first component is the list of stage
modules whose process method was invoked, in invocation order; the
second is whether a final result dictionary was returned. -/
def simulate_single_sample (b : StageStatuses) : List String × Bool :=
  if b.acquisitionOk = false then (stageNames.take 1, false)
  else if b.preprocessingOk = false then (stageNames.take 2, false)
  else if b.segmentationOk = false then (stageNames.take 3, false)
  else if b.classificationOk = false then (stageNames.take 4, false)
  else if b.countingOk = false then (stageNames.take 5, false)
  else if b.analyticsOk = false then (stageNames.take 6, false)
  else if b.exportOk = false then (stageNames.take 7, false)
  else (stageNames.take 7, true)

set_option maxRecDepth 20000 in
/-- C2: execution is fail-fast per sample. If stage i is the first stage
returning an error, exactly stages 1..i are invoked (stages i+1..n are
never invoked) and no result is returned; in particular the export
module's process is never invoked for a sample whose segmentation stage
failed, so no export output exists for it. -/
theorem fail_fast_per_sample :
    (∀ (b : StageStatuses) (i : Fin 7),
      stageOk b i = false → (∀ j : Fin 7, j < i → stageOk b j = true) →
      (simulate_single_sample b).1 = stageNames.take (i.1 + 1) ∧
        (simulate_single_sample b).2 = false) ∧
    (∀ b : StageStatuses, b.segmentationOk = false →
      "export" ∉ (simulate_single_sample b).1) := by
  decide

/-- Witness for C2: a sample whose segmentation stage errors runs only
acquisition, preprocessing and segmentation and returns no result. -/
theorem fail_fast_per_sample_witness :
    (simulate_single_sample
        ⟨true, true, false, true, true, true, true⟩).1 = stageNames.take 3 ∧
    (simulate_single_sample
        ⟨true, true, false, true, true, true, true⟩).2 = false :=
  fail_fast_per_sample.1 ⟨true, true, false, true, true, true, true⟩
    ⟨2, by decide⟩ (by decide) (by decide)

/- ### Batch orchestrator (batch_process.py) -/

/-- The per-sample result dictionary a successful pipeline execution
returns, as read by batch_process.py: the status field, the summary
block (capture_id, total_organisms, counts_by_class, species_richness,
shannon_diversity) and the detailed_results block (diversity.simpson,
bloom_alerts). -/
structure PipeResult where
  status : String
  captureId : String
  totalOrganisms : ℕ
  countsByClass : List (String × ℕ)
  sampleRichness : ℕ
  shannonDiversity : ℚ
  simpsonDiversity : ℚ
  bloomAlerts : List (String × ℚ)
  deriving DecidableEq

/-- One iteration outcome of process_single_image for a named image file:
either the result dictionary (status success) or an error message. -/
def BatchOutcome : Type := String × Except String PipeResult

/-- Embedding of the processing loop of batch_process.main (lines
176-186): on an error the failure is recorded; without
continue_on_error the script calls sys.exit(1) at the first failure,
otherwise it proceeds. Returns the early exit code (if any), the
accumulated successful results and the failure list. -/
def batchLoop (continueOnError : Bool) :
    List BatchOutcome → List PipeResult → List (String × String) →
      Option ℕ × List PipeResult × List (String × String)
  | [], acc, failed => (none, acc, failed)
  | (name, Except.error e) :: rest, acc, failed =>
    if continueOnError then
      batchLoop continueOnError rest acc (failed ++ [(name, e)])
    else (some 1, acc, failed ++ [(name, e)])
  | (_, Except.ok r) :: rest, acc, failed =>
    batchLoop continueOnError rest (acc ++ [r]) failed

/-- Embedding of batch_process.main after images have been found: runs
the processing loop; if the loop aborted early the process exits with
that code, otherwise the script prints and saves the summary and runs
to completion, which is process exit code 0. -/
def batch_main (images : List BatchOutcome) (continueOnError : Bool) :
    ℕ × List PipeResult × List (String × String) :=
  match batchLoop continueOnError images [] [] with
  | (some code, acc, failed) => (code, acc, failed)
  | (none, acc, failed) => (0, acc, failed)

/-- Recognizes a failing sample outcome. -/
def isFailureOutcome : BatchOutcome → Bool
  | (_, Except.error _) => true
  | (_, Except.ok _) => false

/-- Number of failing samples in a batch. -/
def failureCount (images : List BatchOutcome) : ℕ :=
  (images.filter isFailureOutcome).length

theorem batchLoop_error_step (continueOnError : Bool) (name e : String)
    (rest : List BatchOutcome) (acc : List PipeResult)
    (failed : List (String × String)) :
    batchLoop continueOnError ((name, Except.error e) :: rest) acc failed =
      if continueOnError then
        batchLoop continueOnError rest acc (failed ++ [(name, e)])
      else (some 1, acc, failed ++ [(name, e)]) := rfl

theorem batchLoop_ok_step (continueOnError : Bool) (name : String)
    (r : PipeResult) (rest : List BatchOutcome) (acc : List PipeResult)
    (failed : List (String × String)) :
    batchLoop continueOnError ((name, Except.ok r) :: rest) acc failed =
      batchLoop continueOnError rest (acc ++ [r]) failed := rfl

theorem batchLoop_none_iff (continueOnError : Bool) :
    ∀ (l : List BatchOutcome) (acc : List PipeResult)
      (failed : List (String × String)),
      (batchLoop continueOnError l acc failed).1 = none ↔
        (continueOnError = true ∨ failureCount l = 0) := by
  intro l
  induction l with
  | nil =>
    intro acc failed
    simp [batchLoop, failureCount]
  | cons x rest ih =>
    intro acc failed
    obtain ⟨name, outcome⟩ := x
    cases outcome with
    | error e =>
      rw [batchLoop_error_step]
      by_cases hc : continueOnError = true
      · rw [if_pos hc, ih]
        simp [hc]
      · simp only [Bool.not_eq_true] at hc
        rw [if_neg (by simp [hc])]
        simp [hc, failureCount, isFailureOutcome]
    | ok r =>
      rw [batchLoop_ok_step, ih]
      simp [failureCount, isFailureOutcome]

theorem batchLoop_first_cases (continueOnError : Bool) :
    ∀ (l : List BatchOutcome) (acc : List PipeResult)
      (failed : List (String × String)),
      (batchLoop continueOnError l acc failed).1 = none ∨
        (batchLoop continueOnError l acc failed).1 = some 1 := by
  intro l
  induction l with
  | nil =>
    intro acc failed
    exact Or.inl rfl
  | cons x rest ih =>
    intro acc failed
    obtain ⟨name, outcome⟩ := x
    cases outcome with
    | error e =>
      rw [batchLoop_error_step]
      by_cases hc : continueOnError = true
      · rw [if_pos hc]
        exact ih acc (failed ++ [(name, e)])
      · simp only [Bool.not_eq_true] at hc
        rw [if_neg (by simp [hc])]
        exact Or.inr rfl
    | ok r =>
      rw [batchLoop_ok_step]
      exact ih (acc ++ [r]) failed

/-- C6 (amended): the process exit code of a batch run is 0 exactly when
the batch had zero failures or continue-on-error was set; in particular
with continue-on-error the exit code is 0 even when every sample
failed and none succeeded. -/
theorem batch_exit_code (images : List BatchOutcome) (continueOnError : Bool) :
    (batch_main images continueOnError).1 = 0 ↔
      (failureCount images = 0 ∨ continueOnError = true) := by
  have h1 := batchLoop_none_iff continueOnError images [] []
  rcases batchLoop_first_cases continueOnError images [] [] with h2 | h2
  · have hmain : (batch_main images continueOnError).1 = 0 := by
      unfold batch_main
      rcases hb : batchLoop continueOnError images [] [] with ⟨fst, snd⟩
      rw [hb] at h2
      simp only at h2
      rw [h2]
    have hp := h1.1 h2
    exact iff_of_true hmain (hp.elim Or.inr Or.inl)
  · have hmain : (batch_main images continueOnError).1 = 1 := by
      unfold batch_main
      rcases hb : batchLoop continueOnError images [] [] with ⟨fst, snd⟩
      rw [hb] at h2
      simp only at h2
      rw [h2]
    apply iff_of_false
    · rw [hmain]
      simp
    · intro hor
      have hnone : (batchLoop continueOnError images [] []).1 = none :=
        h1.2 (hor.elim Or.inr Or.inl)
      rw [h2] at hnone
      cases hnone

/-- A batch consisting of a single failing image. -/
def failingBatch : List BatchOutcome :=
  [("img1.jpg", Except.error ("Pipeline failed: Unknown error"))]

/-- Counterexample to C6 as stated: with continue-on-error set and every
sample failing (one failure, zero successes), the process exit code is
0, while the claim requires a non-zero exit code in that situation. -/
theorem batch_exit_code_counterexample :
    ¬ (((batch_main failingBatch true).1 = 0) ↔
        (failureCount failingBatch = 0 ∨
          (true = true ∧ (batch_main failingBatch true).2.1 ≠ []))) := by
  decide

/-- Accumulator of the summary loop in summarize_results: the running
organism total, the species-detected set, the merged species counts,
the shannon and simpson sums and the bloom list. -/
structure SummaryAcc where
  organisms : ℕ
  speciesDetected : List String
  speciesCounts : List (String × ℕ)
  shannonSum : ℚ
  simpsonSum : ℚ
  blooms : List (String × String × ℚ)
  deriving DecidableEq

/-- Adds one class count into a dict-like association list, mirroring
`summary['species_counts'][species] = summary['species_counts'].get(species, 0) + count`. -/
def addClassCount (m : List (String × ℕ)) (k : String) (n : ℕ) :
    List (String × ℕ) :=
  match m with
  | [] => [(k, n)]
  | (a, b) :: rest =>
    if a = k then (a, b + n) :: rest else (a, b) :: addClassCount rest k n

/-- Adds a label to the species-detected set (Python set semantics,
insertion ordered for the embedding). -/
def addDetected (l : List String) (k : String) : List String :=
  if k ∈ l then l else l ++ [k]

/-- Merges one sample's counts_by_class into the accumulator, iterating
the class-count items as the source loop does. -/
def mergeClassCounts (acc : SummaryAcc) (cc : List (String × ℕ)) : SummaryAcc :=
  cc.foldl
    (fun a p =>
      { a with
        speciesDetected := addDetected a.speciesDetected p.1,
        speciesCounts := addClassCount a.speciesCounts p.1 p.2 }) acc

/-- One iteration of the loop in summarize_results (batch_process.py
lines 76-105): results whose status is not success are skipped
entirely; for a success the organism total, species counts, shannon and
simpson sums and the bloom list are updated. -/
def summarizeStep (acc : SummaryAcc) (r : PipeResult) : SummaryAcc :=
  if r.status = "success" then
    let acc1 := mergeClassCounts
      { acc with organisms := acc.organisms + r.totalOrganisms } r.countsByClass
    { acc1 with
      shannonSum := acc1.shannonSum + r.shannonDiversity,
      simpsonSum := acc1.simpsonSum + r.simpsonDiversity,
      blooms := acc1.blooms ++ r.bloomAlerts.map (fun b => (r.captureId, b.1, b.2)) }
  else acc

/-- The batch summary dictionary built by summarize_results. The
average_diversity sub-dictionary is kept as an association list to
mirror the Python dict `{'shannon': ..., 'simpson': ...}` exactly. -/
structure BatchSummary where
  totalImages : ℕ
  totalOrganisms : ℕ
  speciesDetected : List String
  speciesCounts : List (String × ℕ)
  averageDiversity : List (String × ℚ)
  bloomsDetected : List (String × String × ℚ)
  deriving DecidableEq

/-- Embedding of summarize_results (batch_process.py lines 62-114):
total_images is the length of the list passed in; the accumulators run
over the results with non-success entries skipped; average_diversity
divides the shannon and simpson sums by total_images when it is
positive and otherwise keeps the initial zero entries. -/
def summarize_results (allResults : List PipeResult) : BatchSummary :=
  let acc := allResults.foldl summarizeStep
    { organisms := 0, speciesDetected := [], speciesCounts := [],
      shannonSum := 0, simpsonSum := 0, blooms := [] }
  { totalImages := allResults.length,
    totalOrganisms := acc.organisms,
    speciesDetected := acc.speciesDetected,
    speciesCounts := acc.speciesCounts,
    averageDiversity :=
      if 0 < allResults.length then
        [("shannon", acc.shannonSum / (allResults.length : ℚ)),
         ("simpson", acc.simpsonSum / (allResults.length : ℚ))]
      else [("shannon", 0), ("simpson", 0)],
    bloomsDetected := acc.blooms }

/-- The successful results of a batch. -/
def successResults (l : List PipeResult) : List PipeResult :=
  l.filter (fun r => decide (r.status = "success"))

/-- Merged class counts of a list of results, the way summarize_results
merges them. -/
def mergedClassCounts (l : List PipeResult) : List (String × ℕ) :=
  (l.foldl
    (fun m r => r.countsByClass.foldl (fun mm p => addClassCount mm p.1 p.2) m)
    [])

theorem mergeClassCounts_fields (cc : List (String × ℕ)) :
    ∀ a : SummaryAcc,
      (mergeClassCounts a cc).organisms = a.organisms ∧
      (mergeClassCounts a cc).shannonSum = a.shannonSum ∧
      (mergeClassCounts a cc).simpsonSum = a.simpsonSum ∧
      (mergeClassCounts a cc).blooms = a.blooms ∧
      (mergeClassCounts a cc).speciesCounts =
        cc.foldl (fun mm p => addClassCount mm p.1 p.2) a.speciesCounts := by
  induction cc with
  | nil =>
    intro a
    exact ⟨rfl, rfl, rfl, rfl, rfl⟩
  | cons p rest ih =>
    intro a
    exact ih
      { a with
        speciesDetected := addDetected a.speciesDetected p.1,
        speciesCounts := addClassCount a.speciesCounts p.1 p.2 }

theorem summarizeStep_success (acc : SummaryAcc) (r : PipeResult)
    (h : r.status = "success") :
    (summarizeStep acc r).shannonSum = acc.shannonSum + r.shannonDiversity ∧
    (summarizeStep acc r).simpsonSum = acc.simpsonSum + r.simpsonDiversity ∧
    (summarizeStep acc r).speciesCounts =
      r.countsByClass.foldl (fun mm p => addClassCount mm p.1 p.2)
        acc.speciesCounts := by
  have hm := mergeClassCounts_fields r.countsByClass
    { acc with organisms := acc.organisms + r.totalOrganisms }
  unfold summarizeStep
  rw [if_pos h]
  refine ⟨?_, ?_, ?_⟩
  · simp only
    rw [hm.2.1]
  · simp only
    rw [hm.2.2.1]
  · simp only
    rw [hm.2.2.2.2]

theorem summarizeStep_skip (acc : SummaryAcc) (r : PipeResult)
    (h : ¬ r.status = "success") : summarizeStep acc r = acc := by
  simp [summarizeStep, h]

theorem summarize_foldl_filter (l : List PipeResult) :
    ∀ acc : SummaryAcc,
      l.foldl summarizeStep acc = (successResults l).foldl summarizeStep acc := by
  induction l with
  | nil =>
    intro acc
    rfl
  | cons r rest ih =>
    intro acc
    by_cases h : r.status = "success"
    · have hs : successResults (r :: rest) = r :: successResults rest := by
        simp [successResults, List.filter_cons, h]
      rw [List.foldl_cons, hs, List.foldl_cons, ih]
    · have hs : successResults (r :: rest) = successResults rest := by
        simp [successResults, List.filter_cons, h]
      rw [List.foldl_cons, hs, summarizeStep_skip acc r h, ih]

theorem summarize_foldl_sums (l : List PipeResult) :
    (∀ r ∈ l, r.status = "success") →
    ∀ acc : SummaryAcc,
      (l.foldl summarizeStep acc).shannonSum =
        acc.shannonSum + (l.map PipeResult.shannonDiversity).sum ∧
      (l.foldl summarizeStep acc).simpsonSum =
        acc.simpsonSum + (l.map PipeResult.simpsonDiversity).sum ∧
      (l.foldl summarizeStep acc).speciesCounts =
        l.foldl
          (fun m r => r.countsByClass.foldl (fun mm p => addClassCount mm p.1 p.2) m)
          acc.speciesCounts := by
  induction l with
  | nil =>
    intro _ acc
    simp
  | cons r rest ih =>
    intro hl acc
    have hr : r.status = "success" := hl r (by simp)
    have hrest : ∀ x ∈ rest, x.status = "success" := by
      intro x hx
      exact hl x (by simp [hx])
    obtain ⟨ihs, ihp, ihc⟩ := ih hrest (summarizeStep acc r)
    obtain ⟨hss, hsp, hsc⟩ := summarizeStep_success acc r hr
    refine ⟨?_, ?_, ?_⟩
    · rw [List.foldl_cons, ihs, hss, List.map_cons, List.sum_cons]
      ring
    · rw [List.foldl_cons, ihp, hsp, List.map_cons, List.sum_cons]
      ring
    · rw [List.foldl_cons, ihc, hsc, List.foldl_cons]

theorem successResults_all_success (l : List PipeResult) :
    ∀ r ∈ successResults l, r.status = "success" := by
  intro r hr
  rw [successResults, List.mem_filter] at hr
  simpa using hr.2

/-- C7 (amended): when the result list of a continue-on-error batch run
is summarized (only successful samples reach summarize_results; failed
samples go to the failure list instead), the average_diversity
dictionary holds exactly a shannon entry and a simpson entry, each the
arithmetic mean over the successful samples; it has no species_richness
entry, so no mean species richness is reported; and the merged species
counts come from successful samples only. -/
theorem batch_summary_mean_diversity (allResults : List PipeResult)
    (hs : ∀ r ∈ allResults, r.status = "success") (hne : allResults ≠ []) :
    (summarize_results allResults).averageDiversity =
      [("shannon",
        ((allResults.map PipeResult.shannonDiversity).sum) / (allResults.length : ℚ)),
       ("simpson",
        ((allResults.map PipeResult.simpsonDiversity).sum) / (allResults.length : ℚ))] ∧
    lookupKey ("species_richness")
      ((summarize_results allResults).averageDiversity) = none ∧
    (summarize_results allResults).speciesCounts = mergedClassCounts allResults ∧
    (∀ l : List PipeResult,
      (summarize_results l).speciesCounts = mergedClassCounts (successResults l)) := by
  have hpos : 0 < allResults.length := List.length_pos.2 hne
  have hsum := summarize_foldl_sums allResults hs
    { organisms := 0, speciesDetected := [], speciesCounts := [],
      shannonSum := 0, simpsonSum := 0, blooms := [] }
  have havg : (summarize_results allResults).averageDiversity =
      [("shannon",
        ((allResults.map PipeResult.shannonDiversity).sum) / (allResults.length : ℚ)),
       ("simpson",
        ((allResults.map PipeResult.simpsonDiversity).sum) / (allResults.length : ℚ))] := by
    unfold summarize_results
    simp only [if_pos hpos]
    rw [hsum.1, hsum.2.1]
    norm_num
  refine ⟨havg, ?_, ?_, ?_⟩
  · rw [havg]
    simp [lookupKey]
  · unfold summarize_results mergedClassCounts
    simp only
    rw [hsum.2.2]
  · intro l
    have hsuc := summarize_foldl_sums (successResults l)
      (successResults_all_success l)
      { organisms := 0, speciesDetected := [], speciesCounts := [],
        shannonSum := 0, simpsonSum := 0, blooms := [] }
    unfold summarize_results mergedClassCounts
    simp only
    rw [summarize_foldl_filter l, hsuc.2.2]

/-- A concrete successful sample result with species richness 2. -/
def exResult : PipeResult :=
  { status := "success", captureId := "cap1", totalOrganisms := 3,
    countsByClass := [("copepod", 2), ("diatom", 1)], sampleRichness := 2,
    shannonDiversity := 9/10, simpsonDiversity := 1/2, bloomAlerts := [] }

/-- Counterexample to C7 as stated: for a batch with one successful
sample, the summary's mean-diversity dictionary carries no
species_richness entry at all, so the claimed mean of the samples'
speciesRichness values is not part of the reported mean diversity. -/
theorem batch_summary_counterexample :
    ¬ (lookupKey ("species_richness")
        ((summarize_results [exResult]).averageDiversity) =
      some ((exResult.sampleRichness : ℚ))) := by
  decide

/-- Witness for C7: the amended statement applied to a concrete
single-sample batch. -/
theorem batch_summary_mean_diversity_witness :
    (∀ r ∈ [exResult], r.status = "success") ∧
    lookupKey ("species_richness")
      ((summarize_results [exResult]).averageDiversity) = none :=
  ⟨by decide,
    (batch_summary_mean_diversity [exResult] (by decide) (by decide)).2.1⟩

/- ### Buffered capture/processing engine (buffered_detection.py) -/

/-- Behaviour of the external preprocessing, segmentation and
classification modules on one frame, as observed by
BufferedDetector.process_frame: whether some call raises, each module's
status, the organisms the segmenter finds, and the predicted class of
each classified organism. -/
structure FrameSpec where
  raises : Bool
  prepOk : Bool
  segOk : Bool
  segOrganisms : List String
  classOk : Bool
  classified : List String
  deriving DecidableEq

/-- The result dictionary process_frame returns on success: the frame
number and the classified organisms (their predicted classes). -/
structure WorkerResult where
  frameNumber : ℕ
  organisms : List String
  deriving DecidableEq

/-- Embedding of BufferedDetector.process_frame (buffered_detection.py
lines 74-115): returns None when any exception is raised, when
preprocessing or segmentation or classification report a non-success
status, or when segmentation finds zero organisms (line 95); otherwise
returns the result dictionary. -/
def process_frame (f : FrameSpec) (frameNumber : ℕ) : Option WorkerResult :=
  if f.raises then none
  else if f.prepOk = false then none
  else if f.segOk = false ∨ f.segOrganisms.length = 0 then none
  else if f.classOk = false then none
  else some { frameNumber := frameNumber, organisms := f.classified }

/-- The running session counters of the detector (frames_captured,
frames_processed, total_organisms, species_counts). The source keeps no
frames_dropped counter. -/
structure SessionStats where
  framesCaptured : ℕ
  framesProcessed : ℕ
  totalOrganisms : ℕ
  speciesCounts : List (String × ℕ)
  deriving DecidableEq

/-- State of one live record_and_process session: the frames the capture
source will still deliver, the bounded frame queue, the frame the
worker currently holds (dequeued, pass not yet finished), the mutable
stats, the results queue, the number of queue-full warnings logged, the
number of dequeued frames whose pass produced no result, whether the
recording loop has exited and the final summary snapshot once taken. -/
structure EngineState where
  queueCapacity : ℕ
  pending : List FrameSpec
  frameQueue : List (FrameSpec × ℕ)
  inFlight : Option (FrameSpec × ℕ)
  stats : SessionStats
  resultsQueue : List WorkerResult
  queueFullWarnings : ℕ
  failedFrames : ℕ
  producerStopped : Bool
  finalSnapshot : Option SessionStats
  deriving DecidableEq

/-- The interleaved events of a session: one recording-loop iteration,
the recording loop exiting (duration limit, user quit, read failure or
interrupt), the worker taking a frame from the queue, the worker
finishing the pass on its in-flight frame, and the shutdown sequence
(frame_queue.join, worker join, final summary). -/
inductive EngineAct where
  | capture
  | stopCapture
  | dequeue
  | finish
  | shutdown
  deriving DecidableEq

/-- Embedding of queue.Queue.put with block=False on a bounded queue:
appends when there is room, raises queue.Full otherwise. -/
def queuePutNowait (capacity : ℕ) (q : List (FrameSpec × ℕ))
    (item : FrameSpec × ℕ) : Except Unit (List (FrameSpec × ℕ)) :=
  if q.length < capacity then Except.ok (q ++ [item]) else Except.error ()

/-- Embedding of the stats merge in processing_worker (lines 132-143):
under the lock, frames_processed is incremented, total_organisms grows
by the number of organisms and each organism's predicted class bumps
its species count. -/
def mergeResult (st : SessionStats) (r : WorkerResult) : SessionStats :=
  { st with
    framesProcessed := st.framesProcessed + 1,
    totalOrganisms := st.totalOrganisms + r.organisms.length,
    speciesCounts :=
      r.organisms.foldl (fun m k => addClassCount m k 1) st.speciesCounts }

/-- Small-step semantics of a live session of
BufferedDetector.record_and_process with one processing worker.

capture: one iteration of the recording loop (lines 214-251):
frames_captured is incremented and the frame is enqueued with
put(block=False); when the queue is full the queue.Full exception is
caught at the call site, a warning is logged and the loop continues.

stopCapture: the recording loop exits.

dequeue: the idle worker takes the head frame from the FIFO queue.

finish: the worker completes process_frame on its in-flight frame; on a
result the counts are merged under the lock and the result is appended
to the results queue, otherwise nothing is merged; either way task_done
is called and the worker loops.

shutdown: the finally block (lines 262-280) calls frame_queue.join(),
which returns only once the queue is empty and every dequeued frame has
had task_done called, then stops and joins the worker and takes the
final stats snapshot for the summary. An action whose guard does not
hold (for instance shutdown while frames are still queued or in
flight) blocks, so it leaves the state unchanged; after the snapshot
the session is over and nothing changes any more. -/
def engineStep (s : EngineState) (a : EngineAct) : EngineState :=
  if s.finalSnapshot.isSome then s
  else
    match a with
    | EngineAct.capture =>
      if s.producerStopped then s
      else
        match s.pending with
        | [] => s
        | f :: rest =>
          let n := s.stats.framesCaptured + 1
          let stats1 := { s.stats with framesCaptured := n }
          match queuePutNowait s.queueCapacity s.frameQueue (f, n) with
          | Except.ok q1 =>
            { s with pending := rest, stats := stats1, frameQueue := q1 }
          | Except.error _ =>
            { s with pending := rest, stats := stats1,
                     queueFullWarnings := s.queueFullWarnings + 1 }
    | EngineAct.stopCapture => { s with producerStopped := true }
    | EngineAct.dequeue =>
      match s.inFlight with
      | some _ => s
      | none =>
        match s.frameQueue with
        | [] => s
        | x :: rest => { s with frameQueue := rest, inFlight := some x }
    | EngineAct.finish =>
      match s.inFlight with
      | none => s
      | some (f, n) =>
        match process_frame f n with
        | some r =>
          { s with inFlight := none, stats := mergeResult s.stats r,
                   resultsQueue := s.resultsQueue ++ [r] }
        | none => { s with inFlight := none, failedFrames := s.failedFrames + 1 }
    | EngineAct.shutdown =>
      if s.producerStopped = true ∧ s.frameQueue = [] ∧ s.inFlight = none then
        { s with finalSnapshot := some s.stats }
      else s

/-- The initial state of a session with the given queue capacity and
capture-source frames. -/
def initState (capacity : ℕ) (frames : List FrameSpec) : EngineState :=
  { queueCapacity := capacity, pending := frames, frameQueue := [],
    inFlight := none,
    stats := { framesCaptured := 0, framesProcessed := 0, totalOrganisms := 0,
               speciesCounts := [] },
    resultsQueue := [], queueFullWarnings := 0, failedFrames := 0,
    producerStopped := false, finalSnapshot := none }

/-- Runs a session under a given interleaving of events. -/
def engineRun (capacity : ℕ) (frames : List FrameSpec)
    (acts : List EngineAct) : EngineState :=
  acts.foldl engineStep (initState capacity frames)

/-- Number of frames the worker currently holds. -/
def inFlightCount (s : EngineState) : ℕ :=
  if s.inFlight.isSome then 1 else 0

/-- Session accounting: every captured frame is either still queued,
held by the worker, fully processed, finished without a result, or was
dropped on a full queue (with only a warning logged). -/
def accountingOk (s : EngineState) : Prop :=
  s.stats.framesCaptured =
    s.frameQueue.length + inFlightCount s + s.stats.framesProcessed +
      s.failedFrames + s.queueFullWarnings

/-- A snapshot is only ever taken of the current stats, with the queue
drained, no frame in flight and the producer stopped. -/
def snapshotOk (s : EngineState) : Prop :=
  ∀ st, s.finalSnapshot = some st →
    st = s.stats ∧ s.frameQueue = [] ∧ s.inFlight = none ∧
      s.producerStopped = true

theorem accountingOk_step (s : EngineState) (a : EngineAct)
    (h : accountingOk s) : accountingOk (engineStep s a) := by
  unfold accountingOk at h ⊢
  unfold engineStep
  simp only [inFlightCount] at h ⊢
  by_cases hsnap : s.finalSnapshot.isSome
  · simp only [if_pos hsnap]
    exact h
  · simp only [if_neg hsnap]
    cases a with
    | capture =>
      by_cases hps : s.producerStopped = true
      · simp only [hps, if_true]
        exact h
      · simp only [Bool.not_eq_true] at hps
        simp only [hps, Bool.false_eq_true, if_false]
        cases hp : s.pending with
        | nil => exact h
        | cons f rest =>
          unfold queuePutNowait
          by_cases hq : s.frameQueue.length < s.queueCapacity
          · simp only [if_pos hq]
            simp only [List.length_append, List.length_cons, List.length_nil]
            omega
          · simp only [if_neg hq]
            omega
    | stopCapture => exact h
    | dequeue =>
      cases hif : s.inFlight with
      | some x => exact h
      | none =>
        cases hfq : s.frameQueue with
        | nil => exact h
        | cons x rest =>
          simp only [hif, hfq, List.length_cons, Option.isSome_none,
            Option.isSome_some, if_true, if_false, Bool.false_eq_true] at h ⊢
          omega
    | finish =>
      cases hif : s.inFlight with
      | none => exact h
      | some x =>
        obtain ⟨f, n⟩ := x
        simp only [hif, Option.isSome_some, if_true] at h
        cases hpf : process_frame f n with
        | some r =>
          simp only [hpf, mergeResult, Option.isSome_none, if_false,
            Bool.false_eq_true]
          omega
        | none =>
          simp only [hpf, Option.isSome_none, if_false, Bool.false_eq_true]
          omega
    | shutdown =>
      by_cases hg : s.producerStopped = true ∧ s.frameQueue = [] ∧ s.inFlight = none
      · simp only [if_pos hg]
        exact h
      · simp only [if_neg hg]
        exact h

theorem engineStep_snap (s : EngineState) (a : EngineAct)
    (h : s.finalSnapshot.isSome = true) : engineStep s a = s := by
  simp [engineStep, h]

theorem engineStep_capture_stopped (s : EngineState)
    (h : s.finalSnapshot.isSome = false) (hps : s.producerStopped = true) :
    engineStep s EngineAct.capture = s := by
  simp [engineStep, h, hps]

theorem engineStep_capture_idle (s : EngineState)
    (h : s.finalSnapshot.isSome = false) (hps : s.producerStopped = false)
    (hp : s.pending = []) : engineStep s EngineAct.capture = s := by
  simp [engineStep, h, hps, hp]

theorem engineStep_capture_enqueue (s : EngineState) (f : FrameSpec)
    (rest : List FrameSpec) (h : s.finalSnapshot.isSome = false)
    (hps : s.producerStopped = false) (hp : s.pending = f :: rest)
    (hq : s.frameQueue.length < s.queueCapacity) :
    engineStep s EngineAct.capture =
      { s with pending := rest,
               stats := { s.stats with
                 framesCaptured := s.stats.framesCaptured + 1 },
               frameQueue := s.frameQueue ++ [(f, s.stats.framesCaptured + 1)] } := by
  simp [engineStep, h, hps, hp, queuePutNowait, hq]

theorem engineStep_capture_drop (s : EngineState) (f : FrameSpec)
    (rest : List FrameSpec) (h : s.finalSnapshot.isSome = false)
    (hps : s.producerStopped = false) (hp : s.pending = f :: rest)
    (hq : ¬ s.frameQueue.length < s.queueCapacity) :
    engineStep s EngineAct.capture =
      { s with pending := rest,
               stats := { s.stats with
                 framesCaptured := s.stats.framesCaptured + 1 },
               queueFullWarnings := s.queueFullWarnings + 1 } := by
  simp [engineStep, h, hps, hp, queuePutNowait, hq]

theorem engineStep_stop (s : EngineState)
    (h : s.finalSnapshot.isSome = false) :
    engineStep s EngineAct.stopCapture = { s with producerStopped := true } := by
  simp [engineStep, h]

theorem engineStep_dequeue_busy (s : EngineState) (x : FrameSpec × ℕ)
    (h : s.finalSnapshot.isSome = false) (hif : s.inFlight = some x) :
    engineStep s EngineAct.dequeue = s := by
  simp [engineStep, h, hif]

theorem engineStep_dequeue_empty (s : EngineState)
    (h : s.finalSnapshot.isSome = false) (hif : s.inFlight = none)
    (hfq : s.frameQueue = []) : engineStep s EngineAct.dequeue = s := by
  simp [engineStep, h, hif, hfq]

theorem engineStep_dequeue_take (s : EngineState) (x : FrameSpec × ℕ)
    (rest : List (FrameSpec × ℕ)) (h : s.finalSnapshot.isSome = false)
    (hif : s.inFlight = none) (hfq : s.frameQueue = x :: rest) :
    engineStep s EngineAct.dequeue =
      { s with frameQueue := rest, inFlight := some x } := by
  simp [engineStep, h, hif, hfq]

theorem engineStep_finish_idle (s : EngineState)
    (h : s.finalSnapshot.isSome = false) (hif : s.inFlight = none) :
    engineStep s EngineAct.finish = s := by
  simp [engineStep, h, hif]

theorem engineStep_finish_merge (s : EngineState) (f : FrameSpec) (n : ℕ)
    (r : WorkerResult) (h : s.finalSnapshot.isSome = false)
    (hif : s.inFlight = some (f, n)) (hpf : process_frame f n = some r) :
    engineStep s EngineAct.finish =
      { s with inFlight := none, stats := mergeResult s.stats r,
               resultsQueue := s.resultsQueue ++ [r] } := by
  simp [engineStep, h, hif, hpf]

theorem engineStep_finish_fail (s : EngineState) (f : FrameSpec) (n : ℕ)
    (h : s.finalSnapshot.isSome = false)
    (hif : s.inFlight = some (f, n)) (hpf : process_frame f n = none) :
    engineStep s EngineAct.finish =
      { s with inFlight := none, failedFrames := s.failedFrames + 1 } := by
  simp [engineStep, h, hif, hpf]

theorem engineStep_shutdown_go (s : EngineState)
    (h : s.finalSnapshot.isSome = false) (hps : s.producerStopped = true)
    (hfq : s.frameQueue = []) (hif : s.inFlight = none) :
    engineStep s EngineAct.shutdown =
      { s with finalSnapshot := some s.stats } := by
  simp [engineStep, h, hps, hfq, hif]

theorem engineStep_shutdown_blocked (s : EngineState)
    (h : s.finalSnapshot.isSome = false)
    (hg : ¬ (s.producerStopped = true ∧ s.frameQueue = [] ∧ s.inFlight = none)) :
    engineStep s EngineAct.shutdown = s := by
  simp only [engineStep, h, Bool.false_eq_true, if_false]
  rw [if_neg hg]

/-- A step starting from a state without a snapshot produces a snapshot
only through the shutdown action, only with the queue drained, no frame
in flight and the producer stopped, and the snapshot is the stats at
that moment. -/
theorem engineStep_newSnapshot (s : EngineState) (a : EngineAct)
    (st : SessionStats) (hnone : s.finalSnapshot = none)
    (hst : (engineStep s a).finalSnapshot = some st) :
    st = s.stats ∧ s.frameQueue = [] ∧ s.inFlight = none ∧
      s.producerStopped = true ∧
      engineStep s a = { s with finalSnapshot := some s.stats } := by
  have hsnap : s.finalSnapshot.isSome = false := by simp [hnone]
  cases a with
  | capture =>
    exfalso
    cases hps : s.producerStopped with
    | true =>
      rw [engineStep_capture_stopped s hsnap hps] at hst
      rw [hnone] at hst
      cases hst
    | false =>
      cases hp : s.pending with
      | nil =>
        rw [engineStep_capture_idle s hsnap hps hp] at hst
        rw [hnone] at hst
        cases hst
      | cons f rest =>
        by_cases hq : s.frameQueue.length < s.queueCapacity
        · rw [engineStep_capture_enqueue s f rest hsnap hps hp hq] at hst
          simp [hnone] at hst
        · rw [engineStep_capture_drop s f rest hsnap hps hp hq] at hst
          simp [hnone] at hst
  | stopCapture =>
    exfalso
    rw [engineStep_stop s hsnap] at hst
    simp [hnone] at hst
  | dequeue =>
    exfalso
    cases hif : s.inFlight with
    | some x =>
      rw [engineStep_dequeue_busy s x hsnap hif] at hst
      rw [hnone] at hst
      cases hst
    | none =>
      cases hfq : s.frameQueue with
      | nil =>
        rw [engineStep_dequeue_empty s hsnap hif hfq] at hst
        rw [hnone] at hst
        cases hst
      | cons x rest =>
        rw [engineStep_dequeue_take s x rest hsnap hif hfq] at hst
        simp [hnone] at hst
  | finish =>
    exfalso
    cases hif : s.inFlight with
    | none =>
      rw [engineStep_finish_idle s hsnap hif] at hst
      rw [hnone] at hst
      cases hst
    | some x =>
      obtain ⟨f, n⟩ := x
      cases hpf : process_frame f n with
      | some r =>
        rw [engineStep_finish_merge s f n r hsnap hif hpf] at hst
        simp [hnone] at hst
      | none =>
        rw [engineStep_finish_fail s f n hsnap hif hpf] at hst
        simp [hnone] at hst
  | shutdown =>
    by_cases hg : s.producerStopped = true ∧ s.frameQueue = [] ∧ s.inFlight = none
    · rw [engineStep_shutdown_go s hsnap hg.1 hg.2.1 hg.2.2] at hst
      have hst2 : some s.stats = some st := hst
      simp only [Option.some.injEq] at hst2
      exact ⟨hst2.symm, hg.2.1, hg.2.2, hg.1,
        engineStep_shutdown_go s hsnap hg.1 hg.2.1 hg.2.2⟩
    · exfalso
      rw [engineStep_shutdown_blocked s hsnap hg] at hst
      rw [hnone] at hst
      cases hst

theorem snapshotOk_step (s : EngineState) (a : EngineAct)
    (h : snapshotOk s) : snapshotOk (engineStep s a) := by
  intro st hst
  by_cases hsnap : s.finalSnapshot.isSome = true
  · rw [engineStep_snap s a hsnap] at hst ⊢
    exact h st hst
  · simp only [Bool.not_eq_true] at hsnap
    have hnone : s.finalSnapshot = none := by
      cases hfs : s.finalSnapshot with
      | none => rfl
      | some y =>
        rw [hfs] at hsnap
        cases hsnap
    obtain ⟨h1, h2, h3, h4, h5⟩ := engineStep_newSnapshot s a st hnone hst
    rw [h5]
    exact ⟨h1, h2, h3, h4⟩

theorem accountingOk_run (acts : List EngineAct) :
    ∀ s : EngineState, accountingOk s → accountingOk (acts.foldl engineStep s) := by
  induction acts with
  | nil =>
    intro s h
    exact h
  | cons a rest ih =>
    intro s h
    exact ih (engineStep s a) (accountingOk_step s a h)

theorem snapshotOk_run (acts : List EngineAct) :
    ∀ s : EngineState, snapshotOk s → snapshotOk (acts.foldl engineStep s) := by
  induction acts with
  | nil =>
    intro s h
    exact h
  | cons a rest ih =>
    intro s h
    exact ih (engineStep s a) (snapshotOk_step s a h)

theorem accountingOk_init (capacity : ℕ) (frames : List FrameSpec) :
    accountingOk (initState capacity frames) := by
  simp [accountingOk, initState, inFlightCount]

theorem snapshotOk_init (capacity : ℕ) (frames : List FrameSpec) :
    snapshotOk (initState capacity frames) := by
  intro st hst
  cases hst

theorem engineRun_accounting (capacity : ℕ) (frames : List FrameSpec)
    (acts : List EngineAct) : accountingOk (engineRun capacity frames acts) :=
  accountingOk_run acts (initState capacity frames)
    (accountingOk_init capacity frames)

theorem engineRun_snapshot (capacity : ℕ) (frames : List FrameSpec)
    (acts : List EngineAct) : snapshotOk (engineRun capacity frames acts) :=
  snapshotOk_run acts (initState capacity frames)
    (snapshotOk_init capacity frames)

/-- C1 (amended): at a graceful shutdown every captured frame is
accounted for as processed, dropped on a full queue (logged only: the
source keeps no frames_dropped counter) or dequeued-but-failed (its
pass produced no result, e.g. a stage error, an exception or zero
organisms; such frames are counted in no stat). Hence framesCaptured
equals framesProcessed plus drops plus failed frames, and equals
framesProcessed plus drops only when no frame failed. -/
theorem graceful_shutdown_accounting (capacity : ℕ) (frames : List FrameSpec)
    (acts : List EngineAct) (st : SessionStats)
    (h : (engineRun capacity frames acts).finalSnapshot = some st) :
    st.framesCaptured =
      st.framesProcessed +
        (engineRun capacity frames acts).queueFullWarnings +
        (engineRun capacity frames acts).failedFrames := by
  obtain ⟨h1, h2, h3, h4⟩ := engineRun_snapshot capacity frames acts st h
  have hacc := engineRun_accounting capacity frames acts
  unfold accountingOk at hacc
  rw [h2] at hacc
  rw [h1]
  simp only [inFlightCount, h3, Option.isSome_none, Bool.false_eq_true,
    if_false, List.length_nil] at hacc
  omega

/-- A frame on which preprocessing and segmentation succeed but the
segmenter finds zero organisms. -/
def emptySegFrame : FrameSpec :=
  { raises := false, prepOk := true, segOk := true, segOrganisms := [],
    classOk := true, classified := [] }

/-- A frame whose segmentation stage reports an error status. -/
def segFailFrame : FrameSpec :=
  { raises := false, prepOk := true, segOk := false, segOrganisms := [],
    classOk := true, classified := [] }

/-- A frame whose whole pass succeeds with one classified organism. -/
def goodFrame : FrameSpec :=
  { raises := false, prepOk := true, segOk := true, segOrganisms := ["o1"],
    classOk := true, classified := ["copepod"] }

/-- The event order of a session that captures one frame, processes it
and shuts down gracefully. -/
def oneFrameActs : List EngineAct :=
  [EngineAct.capture, EngineAct.stopCapture, EngineAct.dequeue,
   EngineAct.finish, EngineAct.shutdown]

/-- Counterexample to C1 as stated: a graceful one-frame session whose
frame is dequeued but yields no result (zero organisms found) ends with
framesCaptured = 1, framesProcessed = 0 and no dropped frames, so
framesCaptured differs from framesProcessed + framesDropped: the frame
is silently lost from the counts. -/
theorem queue_accounting_counterexample :
    (engineRun 100 [emptySegFrame] oneFrameActs).finalSnapshot =
      some { framesCaptured := 1, framesProcessed := 0, totalOrganisms := 0,
             speciesCounts := [] } ∧
    (engineRun 100 [emptySegFrame] oneFrameActs).queueFullWarnings = 0 ∧
    ¬ ((1 : ℕ) =
        0 + (engineRun 100 [emptySegFrame] oneFrameActs).queueFullWarnings) := by
  decide

/-- Witness for C1: a graceful one-frame session whose frame processes
successfully satisfies the amended accounting identity. -/
theorem graceful_shutdown_accounting_witness :
    ({ framesCaptured := 1, framesProcessed := 1, totalOrganisms := 1,
       speciesCounts := [("copepod", 1)] } : SessionStats).framesCaptured =
      ({ framesCaptured := 1, framesProcessed := 1, totalOrganisms := 1,
         speciesCounts := [("copepod", 1)] } : SessionStats).framesProcessed +
        (engineRun 100 [goodFrame] oneFrameActs).queueFullWarnings +
        (engineRun 100 [goodFrame] oneFrameActs).failedFrames :=
  graceful_shutdown_accounting 100 [goodFrame] oneFrameActs
    { framesCaptured := 1, framesProcessed := 1, totalOrganisms := 1,
      speciesCounts := [("copepod", 1)] } (by decide)

/-- C4: when the producer attempts to enqueue while the queue is full,
put(block=False) raises queue.Full; record_and_process catches it right
at the call site, logs a warning and continues: the resulting state
shows the incoming (newest) frame dropped (the queue is unchanged), the
capture counter advanced and one more warning — the producer neither
blocks nor propagates the exception to its caller. -/
theorem enqueue_nonblocking_drop_newest (s : EngineState) (f : FrameSpec)
    (rest : List FrameSpec) (hsnap : s.finalSnapshot = none)
    (hps : s.producerStopped = false) (hp : s.pending = f :: rest)
    (hfull : ¬ s.frameQueue.length < s.queueCapacity) :
    queuePutNowait s.queueCapacity s.frameQueue
        (f, s.stats.framesCaptured + 1) = Except.error () ∧
    engineStep s EngineAct.capture =
      { s with pending := rest,
               stats := { s.stats with
                 framesCaptured := s.stats.framesCaptured + 1 },
               queueFullWarnings := s.queueFullWarnings + 1 } := by
  have hsnap2 : s.finalSnapshot.isSome = false := by simp [hsnap]
  exact ⟨by simp [queuePutNowait, hfull],
    engineStep_capture_drop s f rest hsnap2 hps hp hfull⟩

/-- A session state whose bounded queue (capacity 1) is full while the
producer still has a frame to capture. -/
def fullQueueState : EngineState :=
  { queueCapacity := 1, pending := [goodFrame],
    frameQueue := [(goodFrame, 1)], inFlight := none,
    stats := { framesCaptured := 1, framesProcessed := 0, totalOrganisms := 0,
               speciesCounts := [] },
    resultsQueue := [], queueFullWarnings := 0, failedFrames := 0,
    producerStopped := false, finalSnapshot := none }

/-- Witness for C4: the drop-newest non-blocking enqueue at a concrete
full-queue state. -/
theorem enqueue_nonblocking_drop_newest_witness :
    queuePutNowait fullQueueState.queueCapacity fullQueueState.frameQueue
        (goodFrame, fullQueueState.stats.framesCaptured + 1) =
      Except.error () ∧
    engineStep fullQueueState EngineAct.capture =
      { fullQueueState with
        pending := [],
        stats := { fullQueueState.stats with
          framesCaptured := fullQueueState.stats.framesCaptured + 1 },
        queueFullWarnings := fullQueueState.queueFullWarnings + 1 } :=
  enqueue_nonblocking_drop_newest fullQueueState goodFrame [] rfl rfl rfl
    (by decide)

/-- C8: whenever a final session snapshot exists, at the moment it was
taken the frame queue was empty and no worker pass was in flight
(frame_queue.join plus worker.join returned first), the snapshot is
exactly the stats at that moment, and every frame ever dequeued had
completed its pass (merged or counted failed) — none was abandoned
mid-processing. -/
theorem shutdown_join_semantics (capacity : ℕ) (frames : List FrameSpec)
    (acts : List EngineAct) (st : SessionStats)
    (h : (engineRun capacity frames acts).finalSnapshot = some st) :
    (engineRun capacity frames acts).frameQueue = [] ∧
    (engineRun capacity frames acts).inFlight = none ∧
    st = (engineRun capacity frames acts).stats ∧
    st.framesCaptured =
      st.framesProcessed + (engineRun capacity frames acts).failedFrames +
        (engineRun capacity frames acts).queueFullWarnings := by
  obtain ⟨h1, h2, h3, h4⟩ := engineRun_snapshot capacity frames acts st h
  have hacc := engineRun_accounting capacity frames acts
  unfold accountingOk at hacc
  rw [h2] at hacc
  refine ⟨h2, h3, h1, ?_⟩
  rw [h1]
  simp only [inFlightCount, h3, Option.isSome_none, Bool.false_eq_true,
    if_false, List.length_nil] at hacc
  omega

/-- Witness for C8: the drained-queue and completed-pass guarantees at a
concrete graceful one-frame session. -/
theorem shutdown_join_semantics_witness :
    (engineRun 100 [segFailFrame] oneFrameActs).frameQueue = [] ∧
    (engineRun 100 [segFailFrame] oneFrameActs).inFlight = none ∧
    ({ framesCaptured := 1, framesProcessed := 0, totalOrganisms := 0,
       speciesCounts := [] } : SessionStats) =
      (engineRun 100 [segFailFrame] oneFrameActs).stats ∧
    ({ framesCaptured := 1, framesProcessed := 0, totalOrganisms := 0,
       speciesCounts := [] } : SessionStats).framesCaptured =
      ({ framesCaptured := 1, framesProcessed := 0, totalOrganisms := 0,
         speciesCounts := [] } : SessionStats).framesProcessed +
        (engineRun 100 [segFailFrame] oneFrameActs).failedFrames +
        (engineRun 100 [segFailFrame] oneFrameActs).queueFullWarnings :=
  shutdown_join_semantics 100 [segFailFrame] oneFrameActs
    { framesCaptured := 1, framesProcessed := 0, totalOrganisms := 0,
      speciesCounts := [] } (by decide)

/-- C9: when the pass on the in-flight frame produces no result (a stage
reported an error or an exception was raised), the failure is logged
(the failed count grows), nothing is merged into the session stats, and
the worker loop goes on: the frame slot is freed, the rest of the state
is untouched, and a queued frame is picked up by the very next dequeue
— a single frame's failure never terminates the worker or the
session. -/
theorem frame_failure_isolated (s : EngineState) (f : FrameSpec) (n : ℕ)
    (hsnap : s.finalSnapshot = none) (hif : s.inFlight = some (f, n))
    (hfail : process_frame f n = none) :
    engineStep s EngineAct.finish =
      { s with inFlight := none, failedFrames := s.failedFrames + 1 } ∧
    (engineStep s EngineAct.finish).stats = s.stats ∧
    (∀ x rest, s.frameQueue = x :: rest →
      (engineStep (engineStep s EngineAct.finish)
        EngineAct.dequeue).inFlight = some x) := by
  have hsnap2 : s.finalSnapshot.isSome = false := by simp [hsnap]
  have hstep := engineStep_finish_fail s f n hsnap2 hif hfail
  refine ⟨hstep, by rw [hstep], ?_⟩
  intro x rest hfq
  rw [hstep]
  rw [engineStep_dequeue_take
    { s with inFlight := none, failedFrames := s.failedFrames + 1 }
    x rest (by simp [hsnap]) rfl hfq]

/-- A session state whose worker holds a frame that will fail its pass
while another frame waits in the queue. -/
def inFlightFailState : EngineState :=
  { queueCapacity := 100, pending := [], frameQueue := [(goodFrame, 2)],
    inFlight := some (segFailFrame, 1),
    stats := { framesCaptured := 2, framesProcessed := 0, totalOrganisms := 0,
               speciesCounts := [] },
    resultsQueue := [], queueFullWarnings := 0, failedFrames := 0,
    producerStopped := true, finalSnapshot := none }

/-- Witness for C9: failure isolation at a concrete state with a
segmentation-error frame in flight. -/
theorem frame_failure_isolated_witness :
    engineStep inFlightFailState EngineAct.finish =
      { inFlightFailState with
        inFlight := none,
        failedFrames := inFlightFailState.failedFrames + 1 } ∧
    (engineStep inFlightFailState EngineAct.finish).stats =
      inFlightFailState.stats ∧
    (∀ x rest, inFlightFailState.frameQueue = x :: rest →
      (engineStep (engineStep inFlightFailState EngineAct.finish)
        EngineAct.dequeue).inFlight = some x) :=
  frame_failure_isolated inFlightFailState segFailFrame 1 rfl rfl (by decide)

/-- C10: a frame on which preprocessing and segmentation both succeed
with zero organisms found makes process_frame return None (line 95), so
the worker treats it exactly like a failed frame: frames_processed is
not incremented and the frame contributes nothing to the session
statistics. -/
theorem zero_organisms_uncounted (f : FrameSpec) (n : ℕ) (s : EngineState)
    (h1 : f.raises = false) (h2 : f.prepOk = true) (h3 : f.segOk = true)
    (h4 : f.segOrganisms = []) (hsnap : s.finalSnapshot = none)
    (hif : s.inFlight = some (f, n)) :
    process_frame f n = none ∧
    engineStep s EngineAct.finish =
      { s with inFlight := none, failedFrames := s.failedFrames + 1 } ∧
    (engineStep s EngineAct.finish).stats.framesProcessed =
      s.stats.framesProcessed := by
  have hpf : process_frame f n = none := by
    simp [process_frame, h1, h2, h4]
  have hsnap2 : s.finalSnapshot.isSome = false := by simp [hsnap]
  have hstep := engineStep_finish_fail s f n hsnap2 hif hpf
  exact ⟨hpf, hstep, by rw [hstep]⟩

/-- A session state whose worker holds a fully-analyzed frame with zero
organisms. -/
def zeroOrganismState : EngineState :=
  { queueCapacity := 100, pending := [], frameQueue := [],
    inFlight := some (emptySegFrame, 1),
    stats := { framesCaptured := 1, framesProcessed := 0, totalOrganisms := 0,
               speciesCounts := [] },
    resultsQueue := [], queueFullWarnings := 0, failedFrames := 0,
    producerStopped := true, finalSnapshot := none }

/-- Witness for C10: the zero-organism frame behaviour at a concrete
state. -/
theorem zero_organisms_uncounted_witness :
    process_frame emptySegFrame 1 = none ∧
    engineStep zeroOrganismState EngineAct.finish =
      { zeroOrganismState with
        inFlight := none,
        failedFrames := zeroOrganismState.failedFrames + 1 } ∧
    (engineStep zeroOrganismState EngineAct.finish).stats.framesProcessed =
      zeroOrganismState.stats.framesProcessed :=
  zero_organisms_uncounted emptySegFrame 1 zeroOrganismState rfl rfl rfl rfl
    rfl rfl
